import Mathlib

/-!
Shallow embedding of the smalltalk message-framing crate.

Byte sequences are `List Nat`.  The pluggable header trait
(`header::IsHeader`) and the bincode serialization options become explicit
capability records (`HeaderCodec`, `Ser`) passed to each operation, matching
the generic parameters `H` and `O` of the Rust code.  The transport is
modelled as an explicit input to `read`/`write`: the bytes delivered by one
`read_buf` call, resp. the number of bytes one `write_buf` call accepts.
-/

namespace Smalltalk

/-- Byte sequences on the wire (contents of bytes::Bytes / BytesMut). -/
abbrev Bytes := List Nat

/-- Capability record for `header::IsHeader`: a fixed-width frame header
declaring a payload length.  `from_bytes` returns `none` on validation
failure (the trait's associated `Error`). -/
structure HeaderCodec (H : Type) where
  new : Nat → H
  size : H → Nat
  as_bytes : H → Bytes
  from_bytes : Bytes → Option H
  header_size : Nat

/-- Capability record for `bincode::Options`: serialized-size measurement,
serialization and deserialization of the payload type, each fallible. -/
structure Ser (M : Type) where
  serialized_size : M → Option Nat
  serialize : M → Option Bytes
  deserialize : Bytes → Option M

/-- The generic message container `msg::MessageWrapper<M, H>`: the header
type is a phantom association, only the payload is stored. -/
structure MessageWrapper (M : Type) where
  inner : M
deriving DecidableEq

/-- MessageWrapper::header — build a header from the payload's serialized
size (`H::new(options.serialized_size(&self.inner)?)`). -/
def MessageWrapper.header {M H : Type} (hc : HeaderCodec H) (sr : Ser M)
    (w : MessageWrapper M) : Option H :=
  (sr.serialized_size w.inner).map hc.new

/-- MessageWrapper::serialize_self — serialize only the contained message. -/
def MessageWrapper.serialize_self {M : Type} (sr : Ser M)
    (w : MessageWrapper M) : Option Bytes :=
  sr.serialize w.inner

/-- MessageWrapper::serialize — serialize the header, serialize the message,
and append the message bytes to the header bytes. -/
def MessageWrapper.serialize {M H : Type} (hc : HeaderCodec H) (sr : Ser M)
    (w : MessageWrapper M) : Option Bytes :=
  (w.header hc sr).bind fun h =>
    (w.serialize_self sr).map fun s => hc.as_bytes h ++ s

/-- MessageWrapper::from_bytes — deserialize a payload and wrap it. -/
def MessageWrapper.from_bytes {M : Type} (sr : Ser M) (data : Bytes) :
    Option (MessageWrapper M) :=
  (sr.deserialize data).map MessageWrapper.mk

/-- The private state enum `socket::read::ReaderState<H>`. -/
inductive ReaderState (H : Type)
  | Ready
  | ReadingHeader
  | ProcessHeader
  | ReadingMessage (header : H)
  | ProcessMessage (header : H)
deriving DecidableEq

/-- The reader `socket::read::Reader<H, M, O>` without its socket handle:
accumulation buffer, state, and ready-message queue.  The
`serialization_settings` and `header_size` fields are supplied through the
`Ser`/`HeaderCodec` arguments of each operation. -/
structure Reader (H M : Type) where
  databuffer : Bytes
  state : ReaderState H
  ready_messages : List (MessageWrapper M)
deriving DecidableEq

/-- Reader::new — empty buffer, default (Ready) state, no queued messages. -/
def Reader.new (H M : Type) : Reader H M :=
  { databuffer := [], state := ReaderState.Ready, ready_messages := [] }

/-- Transport-level read failure (std::io::Error). -/
inductive IOError
  | ioError
deriving DecidableEq

/-- Reader::read — one `read_buf` attempt modelled by its outcome `tx`:
either an I/O error (propagated by `?`) or the bytes delivered (possibly
none, which is how a closed peer presents).  Delivered bytes are appended to
the buffer, then the current reading-variant state is promoted to its
processing variant if the buffer has reached its threshold. -/
def Reader.read {H M : Type} (hc : HeaderCodec H) (r : Reader H M)
    (tx : Except IOError Bytes) : Except IOError (Reader H M) :=
  match tx with
  | Except.error e => Except.error e
  | Except.ok bs =>
    let buf := r.databuffer ++ bs
    let st :=
      match r.state with
      | ReaderState.Ready => ReaderState.ReadingHeader
      | ReaderState.ReadingHeader =>
        if hc.header_size ≤ buf.length then ReaderState.ProcessHeader
        else ReaderState.ReadingHeader
      | ReaderState.ReadingMessage h =>
        if hc.size h ≤ buf.length then ReaderState.ProcessMessage h
        else ReaderState.ReadingMessage h
      | s => s
    Except.ok { r with databuffer := buf, state := st }

/-- The caller-visible result of Reader::read, whose Rust return type is
`std::io::Result<()>`: the updated reader state lives behind `&mut self`,
so only success or the I/O error is reported. -/
def Reader.read_result {H M : Type} (hc : HeaderCodec H) (r : Reader H M)
    (tx : Except IOError Bytes) : Except IOError Unit :=
  (Reader.read hc r tx).map fun _ => ()

/-- The error enum `socket::read::error::UpdateError<H>`. -/
inductive UpdateError
  | HeaderParser
  | MessageDeseri
deriving DecidableEq

/-- Outcome of Reader::update.  `ok` carries the updated reader and the
returned Bool (whether a message was newly queued); `err` carries the
updated reader as left behind by `&mut self` when `?`/`Err` returns early;
`panic` models `BytesMut::split_to` panicking because the buffer holds
fewer bytes than requested. -/
inductive UpdateResult (H M : Type)
  | ok (r : Reader H M) (new_msg : Bool)
  | err (e : UpdateError) (r : Reader H M)
  | panicked
deriving DecidableEq

/-- Reader::update — pure state-machine step.  In ProcessHeader it splits
off `header_size` bytes and parses them (transitioning to ReadingMessage on
success); in ProcessMessage it splits off `header.size()` bytes,
deserializes, and pushes the message onto the ready queue; in every other
state it returns `Ok(false)` without touching anything. -/
def Reader.update {H M : Type} (hc : HeaderCodec H) (sr : Ser M)
    (r : Reader H M) : UpdateResult H M :=
  match r.state with
  | ReaderState.ProcessHeader =>
    if hc.header_size ≤ r.databuffer.length then
      let header_dat := r.databuffer.take hc.header_size
      let rest := r.databuffer.drop hc.header_size
      match hc.from_bytes header_dat with
      | some header =>
        UpdateResult.ok
          { r with databuffer := rest,
                   state := ReaderState.ReadingMessage header } false
      | none => UpdateResult.err UpdateError.HeaderParser
          { r with databuffer := rest }
    else UpdateResult.panicked
  | ReaderState.ProcessMessage header =>
    if hc.size header ≤ r.databuffer.length then
      let message_dat := r.databuffer.take (hc.size header)
      let rest := r.databuffer.drop (hc.size header)
      match MessageWrapper.from_bytes sr message_dat with
      | some message =>
        UpdateResult.ok
          { r with databuffer := rest,
                   ready_messages := r.ready_messages ++ [message] } true
      | none => UpdateResult.err UpdateError.MessageDeseri
          { r with databuffer := rest }
    else UpdateResult.panicked
  | _ => UpdateResult.ok r false

/-- Reader::clear_state — discard buffer and queue, reset to default. -/
def Reader.clear_state {H M : Type} (r : Reader H M) : Reader H M :=
  { r with databuffer := [], state := ReaderState.Ready,
           ready_messages := [] }

/-- Reader::latest_message — remove and return the oldest queued message. -/
def Reader.latest_message {H M : Type} (r : Reader H M) :
    Option (MessageWrapper M) × Reader H M :=
  match r.ready_messages with
  | [] => (none, r)
  | m :: rest => (some m, { r with ready_messages := rest })

/-- The error enum `socket::write::error::WriteError`. -/
inductive WriteError
  | IOError
  | Disconnected
deriving DecidableEq

/-- The writer `socket::write::Writer<H, M, O>` without its socket handle:
a FIFO of pending frames.  Each queued frame is stored as its remaining
unflushed bytes, which is how `write_buf` advancing the `Bytes` cursor
presents. -/
structure Writer where
  send_buffers : List Bytes
deriving DecidableEq

/-- Writer::new — empty queue. -/
def Writer.new : Writer := { send_buffers := [] }

/-- Writer::queue — serialize the message into one frame and push it onto
the back of the queue; serialization failure leaves the queue unmodified. -/
def Writer.queue {M H : Type} (hc : HeaderCodec H) (sr : Ser M) (w : Writer)
    (message : MessageWrapper M) : Option Writer :=
  (message.serialize hc sr).map fun bytes =>
    { send_buffers := w.send_buffers ++ [bytes] }

/-- Writer::write — one `write_buf` attempt on the front frame, modelled by
its outcome `tx`: an I/O error, or the number of bytes the transport
accepts.  `write_buf` writes at most the remaining bytes of the frame and
returns how many it wrote; `Ok(0)` with bytes still remaining is treated as
disconnection, `Ok(0)` with nothing remaining pops the frame. -/
def Writer.write (w : Writer) (tx : Except IOError Nat) :
    Except WriteError Writer :=
  match w.send_buffers with
  | [] => Except.ok w
  | buf :: rest =>
    match tx with
    | Except.error _ => Except.error WriteError.IOError
    | Except.ok accepted =>
      let n := min accepted buf.length
      if n = 0 then
        if buf.length = 0 then Except.ok { send_buffers := rest }
        else Except.error WriteError.Disconnected
      else Except.ok { send_buffers := buf.drop n :: rest }

/-- Little-endian encoding of a u64 length into 8 bytes. -/
def le64 (n : Nat) : Bytes :=
  [n % 256, n / 256 % 256, n / 256 ^ 2 % 256, n / 256 ^ 3 % 256,
   n / 256 ^ 4 % 256, n / 256 ^ 5 % 256, n / 256 ^ 6 % 256, n / 256 ^ 7 % 256]

/-- Little-endian decoding of 8 bytes into a u64 length. -/
def unLe64 (bs : Bytes) : Nat :=
  match bs with
  | [b0, b1, b2, b3, b4, b5, b6, b7] =>
    b0 + 256 * (b1 + 256 * (b2 + 256 * (b3 + 256 * (b4 + 256 *
      (b5 + 256 * (b6 + 256 * b7))))))
  | _ => 0

/-- A concrete header format with an 8-byte length field (the shape used by
the spec's concrete scenario).  The header value is the declared payload
length. -/
def lenHeader : HeaderCodec Nat :=
  { new := fun n => n
    size := fun h => h
    as_bytes := le64
    from_bytes := fun bs => if bs.length = 8 then some (unLe64 bs) else none
    header_size := 8 }

/-- A concrete 2-byte header format with a magic byte (170) followed by the
payload length, so that header validation can fail. -/
def checkedHeader : HeaderCodec Nat :=
  { new := fun n => n
    size := fun h => h
    as_bytes := fun h => [170, h % 256]
    from_bytes := fun bs =>
      match bs with
      | [m, l] => if m = 170 then some l else none
      | _ => none
    header_size := 2 }

/-- A concrete serialization strategy for raw byte-list payloads: identity
serialization, with serialized size equal to the byte length. -/
def byteSer : Ser Bytes :=
  { serialized_size := fun m => some m.length
    serialize := fun m => some m
    deserialize := fun bs => some bs }

/-- Drive the reader with one transport byte per `read()` call, calling
`update()` after each `read()` as in the spec's concrete scenario; `none`
if any step fails or panics. -/
def feedBytes {H M : Type} (hc : HeaderCodec H) (sr : Ser M)
    (r : Reader H M) (bs : Bytes) : Option (Reader H M) :=
  match bs with
  | [] => some r
  | b :: more =>
    match Reader.read hc r (Except.ok [b]) with
    | Except.error _ => none
    | Except.ok r1 =>
      match Reader.update hc sr r1 with
      | UpdateResult.ok r2 _ => feedBytes hc sr r2 more
      | _ => none

/-- C1: the spec says a successful `update()` in the body-full state
(ProcessMessage) decodes `header.size()` bytes, removes them, pushes the
message, returns true, and moves the state back to ReadingHeader.  The code
does everything except the last step: evaluated at a concrete body-full
reader, the post-state is still ProcessMessage, not ReadingHeader. -/
theorem C1_processMessage_state_not_reset :
    Reader.update lenHeader byteSer
        ({ databuffer := [9, 9, 9, 9, 9],
           state := ReaderState.ProcessMessage 5,
           ready_messages := [] } : Reader Nat Bytes) =
      UpdateResult.ok
        { databuffer := [],
          state := ReaderState.ProcessMessage 5,
          ready_messages := [MessageWrapper.mk [9, 9, 9, 9, 9]] } true ∧
    (ReaderState.ProcessMessage 5 : ReaderState Nat) ≠
      ReaderState.ReadingHeader := by
  constructor
  · rfl
  · decide

/-- C2 counterexample: a reader awaiting a header receives two complete
well-formed frames ([170,1,7] and [170,1,8], each an encoding produced by
MessageWrapper.serialize) in a single read(); the first update() only
parses the first header and the second update() is a no-op, so the ready
queue is still empty — the two frames are not decoded. -/
theorem C2_two_updates_yield_no_messages :
    MessageWrapper.serialize checkedHeader byteSer (MessageWrapper.mk [7]) =
      some [170, 1, 7] ∧
    MessageWrapper.serialize checkedHeader byteSer (MessageWrapper.mk [8]) =
      some [170, 1, 8] ∧
    Reader.read checkedHeader
        ({ databuffer := [], state := ReaderState.ReadingHeader,
           ready_messages := [] } : Reader Nat Bytes)
        (Except.ok [170, 1, 7, 170, 1, 8]) =
      Except.ok
        { databuffer := [170, 1, 7, 170, 1, 8],
          state := ReaderState.ProcessHeader, ready_messages := [] } ∧
    Reader.update checkedHeader byteSer
        ({ databuffer := [170, 1, 7, 170, 1, 8],
           state := ReaderState.ProcessHeader,
           ready_messages := [] } : Reader Nat Bytes) =
      UpdateResult.ok
        { databuffer := [7, 170, 1, 8],
          state := ReaderState.ReadingMessage 1, ready_messages := [] }
        false ∧
    Reader.update checkedHeader byteSer
        ({ databuffer := [7, 170, 1, 8],
           state := ReaderState.ReadingMessage 1,
           ready_messages := [] } : Reader Nat Bytes) =
      UpdateResult.ok
        { databuffer := [7, 170, 1, 8],
          state := ReaderState.ReadingMessage 1, ready_messages := [] }
        false :=
  ⟨rfl, rfl, rfl, rfl, rfl⟩

/-- C2 (amended): after a single read() that delivers a buffer holding at
least one whole header to a reader awaiting a header, two update() calls
with no intervening read() decode no message: the first parses the first
header and transitions to ReadingMessage, and the second is a no-op,
because only read() promotes a reading state to its processing state. -/
theorem C2_amended_two_updates_parse_header_only {H M : Type}
    (hc : HeaderCodec H) (sr : Ser M) (bs : Bytes) (hd : H)
    (hlen : hc.header_size ≤ bs.length)
    (hparse : hc.from_bytes (bs.take hc.header_size) = some hd) :
    Reader.read hc
        ({ databuffer := [], state := ReaderState.ReadingHeader,
           ready_messages := [] } : Reader H M) (Except.ok bs) =
      Except.ok
        { databuffer := bs, state := ReaderState.ProcessHeader,
          ready_messages := [] } ∧
    Reader.update hc sr
        ({ databuffer := bs, state := ReaderState.ProcessHeader,
           ready_messages := [] } : Reader H M) =
      UpdateResult.ok
        { databuffer := bs.drop hc.header_size,
          state := ReaderState.ReadingMessage hd, ready_messages := [] }
        false ∧
    Reader.update hc sr
        ({ databuffer := bs.drop hc.header_size,
           state := ReaderState.ReadingMessage hd,
           ready_messages := [] } : Reader H M) =
      UpdateResult.ok
        { databuffer := bs.drop hc.header_size,
          state := ReaderState.ReadingMessage hd, ready_messages := [] }
        false := by
  refine ⟨?_, ?_, rfl⟩
  · simp [Reader.read, hlen]
  · simp [Reader.update, hlen, hparse]

/-- Witness for the amended C2 theorem at the concrete two-frame input. -/
theorem C2_amended_witness :
    (checkedHeader.header_size ≤ ([170, 1, 7, 170, 1, 8] : Bytes).length) ∧
    (checkedHeader.from_bytes
        (([170, 1, 7, 170, 1, 8] : Bytes).take checkedHeader.header_size) =
      some 1) ∧
    (Reader.read checkedHeader
        ({ databuffer := [], state := ReaderState.ReadingHeader,
           ready_messages := [] } : Reader Nat Bytes)
        (Except.ok [170, 1, 7, 170, 1, 8]) =
      Except.ok
        { databuffer := [170, 1, 7, 170, 1, 8],
          state := ReaderState.ProcessHeader, ready_messages := [] } ∧
    Reader.update checkedHeader byteSer
        ({ databuffer := [170, 1, 7, 170, 1, 8],
           state := ReaderState.ProcessHeader,
           ready_messages := [] } : Reader Nat Bytes) =
      UpdateResult.ok
        { databuffer :=
            ([170, 1, 7, 170, 1, 8] : Bytes).drop checkedHeader.header_size,
          state := ReaderState.ReadingMessage 1, ready_messages := [] }
        false ∧
    Reader.update checkedHeader byteSer
        ({ databuffer :=
             ([170, 1, 7, 170, 1, 8] : Bytes).drop checkedHeader.header_size,
           state := ReaderState.ReadingMessage 1,
           ready_messages := [] } : Reader Nat Bytes) =
      UpdateResult.ok
        { databuffer :=
            ([170, 1, 7, 170, 1, 8] : Bytes).drop checkedHeader.header_size,
          state := ReaderState.ReadingMessage 1, ready_messages := [] }
        false) :=
  ⟨by decide, by decide,
    C2_amended_two_updates_parse_header_only checkedHeader byteSer
      [170, 1, 7, 170, 1, 8] 1 (by decide) (by decide)⟩

/-- C3: with an 8-byte length header, for every 5-byte payload the encoded
frame is the 8 header bytes followed by the 5 payload bytes (13 bytes);
feeding those 13 bytes to the reader one byte per read() with an update()
after each read yields no decoded message before the 13th byte and exactly
one decoded message, equal to the original payload, after the 13th. -/
theorem C3_byte_at_a_time_delivery (p : Bytes) (hp : p.length = 5) :
    MessageWrapper.serialize lenHeader byteSer (MessageWrapper.mk p) =
      some (le64 5 ++ p) ∧
    (le64 5 ++ p).length = 13 ∧
    (∀ k, k < 13 →
      ∃ rk, feedBytes lenHeader byteSer (Reader.new Nat Bytes)
          ((le64 5 ++ p).take k) = some rk ∧
        rk.ready_messages = []) ∧
    ∃ rf, feedBytes lenHeader byteSer (Reader.new Nat Bytes) (le64 5 ++ p) =
        some rf ∧
      rf.ready_messages = [MessageWrapper.mk p] := by
  obtain ⟨a, b, c, d, e, rfl⟩ : ∃ a b c d e, p = [a, b, c, d, e] := by
    rcases p with _ | ⟨a, _ | ⟨b, _ | ⟨c, _ | ⟨d, _ | ⟨e, _ | ⟨f, t⟩⟩⟩⟩⟩⟩ <;>
      simp only [List.length_cons, List.length_nil] at hp
    · omega
    · omega
    · omega
    · omega
    · omega
    · exact ⟨a, b, c, d, e, rfl⟩
    · omega
  refine ⟨rfl, rfl, ?_, ⟨_, rfl, rfl⟩⟩
  intro k hk
  interval_cases k <;> exact ⟨_, rfl, rfl⟩

/-- Witness for C3 at the concrete payload [1, 2, 3, 4, 5]. -/
theorem C3_byte_at_a_time_delivery_witness :
    ([1, 2, 3, 4, 5] : Bytes).length = 5 ∧
    (MessageWrapper.serialize lenHeader byteSer
        (MessageWrapper.mk [1, 2, 3, 4, 5]) =
      some (le64 5 ++ [1, 2, 3, 4, 5]) ∧
    (le64 5 ++ [1, 2, 3, 4, 5]).length = 13 ∧
    (∀ k, k < 13 →
      ∃ rk, feedBytes lenHeader byteSer (Reader.new Nat Bytes)
          ((le64 5 ++ [1, 2, 3, 4, 5]).take k) = some rk ∧
        rk.ready_messages = []) ∧
    ∃ rf, feedBytes lenHeader byteSer (Reader.new Nat Bytes)
        (le64 5 ++ [1, 2, 3, 4, 5]) = some rf ∧
      rf.ready_messages = [MessageWrapper.mk [1, 2, 3, 4, 5]]) :=
  ⟨by decide, C3_byte_at_a_time_delivery [1, 2, 3, 4, 5] (by decide)⟩

/-- C4 counterexample: after update() returns a header decode error (bad
magic in [0,3]), the next update() with no clear_state() in between is not
a no-op: it consumes two more buffer bytes, retries the parse on [170,1],
and advances the state to ReadingMessage. -/
theorem C4_update_after_error_not_noop :
    Reader.update checkedHeader byteSer
        ({ databuffer := [0, 3, 170, 1],
           state := ReaderState.ProcessHeader,
           ready_messages := [] } : Reader Nat Bytes) =
      UpdateResult.err UpdateError.HeaderParser
        { databuffer := [170, 1], state := ReaderState.ProcessHeader,
          ready_messages := [] } ∧
    Reader.update checkedHeader byteSer
        ({ databuffer := [170, 1], state := ReaderState.ProcessHeader,
           ready_messages := [] } : Reader Nat Bytes) =
      UpdateResult.ok
        { databuffer := [], state := ReaderState.ReadingMessage 1,
          ready_messages := [] } false :=
  ⟨rfl, rfl⟩

/-- C4 (amended): a header decode error leaves the state at ProcessHeader
with the failed header bytes already consumed; a further update() (no
clear_state() in between) is a retry, not a no-op: when at least
header_size bytes remain it splits them off and parses them as the next
header, here succeeding and advancing the state to ReadingMessage. -/
theorem C4_amended_update_after_error_retries {H M : Type}
    (hc : HeaderCodec H) (sr : Ser M) (r : Reader H M) (hd : H)
    (hstate : r.state = ReaderState.ProcessHeader)
    (hlen : hc.header_size ≤ r.databuffer.length)
    (hfail : hc.from_bytes (r.databuffer.take hc.header_size) = none)
    (hlen2 : hc.header_size ≤ (r.databuffer.drop hc.header_size).length)
    (hok : hc.from_bytes
        ((r.databuffer.drop hc.header_size).take hc.header_size) = some hd) :
    Reader.update hc sr r =
      UpdateResult.err UpdateError.HeaderParser
        { r with databuffer := r.databuffer.drop hc.header_size } ∧
    Reader.update hc sr
        { r with databuffer := r.databuffer.drop hc.header_size } =
      UpdateResult.ok
        { r with
            databuffer := (r.databuffer.drop hc.header_size).drop
              hc.header_size,
            state := ReaderState.ReadingMessage hd } false := by
  have hlen2' : hc.header_size ≤ r.databuffer.length - hc.header_size := by
    simpa using hlen2
  constructor
  · simp [Reader.update, hstate, hlen, hfail]
  · simp [Reader.update, hstate, hok, hlen2']

/-- Witness for the amended C4 theorem at a concrete bad-then-good buffer. -/
theorem C4_amended_witness :
    (({ databuffer := [0, 3, 170, 1],
        state := ReaderState.ProcessHeader,
        ready_messages := [] } : Reader Nat Bytes).state =
      ReaderState.ProcessHeader) ∧
    (checkedHeader.header_size ≤ ([0, 3, 170, 1] : Bytes).length) ∧
    (checkedHeader.from_bytes
        (([0, 3, 170, 1] : Bytes).take checkedHeader.header_size) = none) ∧
    (checkedHeader.header_size ≤
      (([0, 3, 170, 1] : Bytes).drop checkedHeader.header_size).length) ∧
    (checkedHeader.from_bytes
        ((([0, 3, 170, 1] : Bytes).drop checkedHeader.header_size).take
          checkedHeader.header_size) = some 1) ∧
    (Reader.update checkedHeader byteSer
        ({ databuffer := [0, 3, 170, 1],
           state := ReaderState.ProcessHeader,
           ready_messages := [] } : Reader Nat Bytes) =
      UpdateResult.err UpdateError.HeaderParser
        { databuffer := ([0, 3, 170, 1] : Bytes).drop
            checkedHeader.header_size,
          state := ReaderState.ProcessHeader, ready_messages := [] } ∧
    Reader.update checkedHeader byteSer
        ({ databuffer := ([0, 3, 170, 1] : Bytes).drop
             checkedHeader.header_size,
           state := ReaderState.ProcessHeader,
           ready_messages := [] } : Reader Nat Bytes) =
      UpdateResult.ok
        { databuffer := (([0, 3, 170, 1] : Bytes).drop
            checkedHeader.header_size).drop checkedHeader.header_size,
          state := ReaderState.ReadingMessage 1, ready_messages := [] }
        false) :=
  ⟨by decide, by decide, by decide, by decide, by decide,
    C4_amended_update_after_error_retries checkedHeader byteSer
      { databuffer := [0, 3, 170, 1], state := ReaderState.ProcessHeader,
        ready_messages := [] } 1
      (by decide) (by decide) (by decide) (by decide) (by decide)⟩

/-- C5 counterexample: a successful transport read that delivers zero bytes
(graceful peer closure) produces exactly the same caller-visible result of
read() — plain success — as a successful read that delivers one byte with
more data still needed, so peer closure is not reported distinctly. -/
theorem C5_zero_byte_read_indistinct :
    Reader.read_result checkedHeader
        ({ databuffer := [], state := ReaderState.ReadingHeader,
           ready_messages := [] } : Reader Nat Bytes) (Except.ok []) =
      Except.ok () ∧
    Reader.read_result checkedHeader
        ({ databuffer := [], state := ReaderState.ReadingHeader,
           ready_messages := [] } : Reader Nat Bytes) (Except.ok [7]) =
      Except.ok () :=
  ⟨rfl, rfl⟩

/-- C5 (amended): read() reports a transport failure as an I/O error, but
every successful transport read — including a zero-byte one denoting
graceful peer closure — is reported as plain success, indistinguishable
from the successful more-data-needed case (the byte count of `read_buf` is
discarded). -/
theorem C5_amended_io_error_and_plain_success {H M : Type}
    (hc : HeaderCodec H) (r : Reader H M) (bs : Bytes) :
    Reader.read hc r (Except.error IOError.ioError) =
      Except.error IOError.ioError ∧
    Reader.read_result hc r (Except.ok bs) = Except.ok () :=
  ⟨rfl, rfl⟩

/-- Witness for the amended C5 theorem at a concrete reader and delivery. -/
theorem C5_amended_witness :
    Reader.read checkedHeader
        ({ databuffer := [], state := ReaderState.Ready,
           ready_messages := [] } : Reader Nat Bytes)
        (Except.error IOError.ioError) =
      Except.error IOError.ioError ∧
    Reader.read_result checkedHeader
        ({ databuffer := [], state := ReaderState.Ready,
           ready_messages := [] } : Reader Nat Bytes) (Except.ok [1]) =
      Except.ok () :=
  C5_amended_io_error_and_plain_success checkedHeader
    { databuffer := [], state := ReaderState.Ready, ready_messages := [] }
    [1]

/-- C6 counterexample: the front frame [1,2,3] is fully flushed by a single
write() whose transport accepts all 3 bytes, yet that same call reports
success with the (now empty) frame still at the front of the queue — the
frame is not popped by the call that flushes it. -/
theorem C6_full_flush_leaves_frame_queued :
    Writer.write { send_buffers := [[1, 2, 3]] } (Except.ok 3) =
      Except.ok { send_buffers := [[]] } ∧
    ({ send_buffers := [[]] } : Writer).send_buffers ≠ [] :=
  ⟨rfl, by decide⟩

/-- C6 (amended): the write() call whose accepted bytes fully flush the
front frame reports success but leaves the fully-flushed (empty) frame at
the front of the queue; the frame is popped by the next write() call, which
observes zero bytes accepted with zero bytes remaining. -/
theorem C6_amended_pop_deferred_to_next_write (buf : Bytes)
    (rest : List Bytes) (accepted : Nat) (hne : buf ≠ [])
    (hacc : buf.length ≤ accepted) :
    Writer.write { send_buffers := buf :: rest } (Except.ok accepted) =
      Except.ok { send_buffers := [] :: rest } ∧
    ∀ accepted2,
      Writer.write { send_buffers := [] :: rest } (Except.ok accepted2) =
        Except.ok { send_buffers := rest } := by
  constructor
  · have hl : buf.length ≠ 0 := by
      simpa [List.length_eq_zero] using hne
    simp [Writer.write, Nat.min_eq_right hacc, hl, List.drop_length]
  · intro accepted2
    simp [Writer.write]

/-- Witness for the amended C6 theorem at a concrete two-frame queue. -/
theorem C6_amended_witness :
    (([1, 2] : Bytes) ≠ []) ∧
    (([1, 2] : Bytes).length ≤ 5) ∧
    (Writer.write { send_buffers := [1, 2] :: [[9]] } (Except.ok 5) =
      Except.ok { send_buffers := [] :: [[9]] } ∧
    ∀ accepted2,
      Writer.write { send_buffers := [] :: [[9]] } (Except.ok accepted2) =
        Except.ok { send_buffers := [[9]] }) :=
  ⟨by decide, by decide,
    C6_amended_pop_deferred_to_next_write [1, 2] [[9]] 5 (by decide)
      (by decide)⟩

/-- C7: when the queue is non-empty and unflushed bytes of the front frame
remain, a write() whose transport accepts zero bytes returns the
Disconnected error, a variant distinct from the ordinary I/O error — never
silent success. -/
theorem C7_zero_accept_reports_disconnected (buf : Bytes)
    (rest : List Bytes) (hne : buf ≠ []) :
    Writer.write { send_buffers := buf :: rest } (Except.ok 0) =
      Except.error WriteError.Disconnected ∧
    WriteError.Disconnected ≠ WriteError.IOError := by
  constructor
  · have hl : buf.length ≠ 0 := by
      simpa [List.length_eq_zero] using hne
    simp [Writer.write, hl]
  · decide

/-- Witness for C7 at a concrete one-frame queue. -/
theorem C7_zero_accept_reports_disconnected_witness :
    (([5] : Bytes) ≠ []) ∧
    (Writer.write { send_buffers := [[5]] } (Except.ok 0) =
      Except.error WriteError.Disconnected ∧
    WriteError.Disconnected ≠ WriteError.IOError) :=
  ⟨by decide, C7_zero_accept_reports_disconnected [5] [] (by decide)⟩

/-- C8: when the payload serializes successfully (to bytes bs, with the
measured serialized size agreeing with bs.length, as bincode guarantees),
MessageWrapper::serialize produces exactly the header bytes followed by the
payload bytes, one contiguous sequence with the header first, the header
built from the payload's serialized byte length. -/
theorem C8_serialize_header_then_payload {H M : Type} (hc : HeaderCodec H)
    (sr : Ser M) (w : MessageWrapper M) (bs : Bytes)
    (hser : sr.serialize w.inner = some bs)
    (hsize : sr.serialized_size w.inner = some bs.length) :
    MessageWrapper.serialize hc sr w =
      some (hc.as_bytes (hc.new bs.length) ++ bs) := by
  simp [MessageWrapper.serialize, MessageWrapper.header,
    MessageWrapper.serialize_self, hser, hsize]

/-- Witness for C8 at a concrete payload under the 8-byte length header. -/
theorem C8_serialize_header_then_payload_witness :
    (byteSer.serialize ([1, 2, 3] : Bytes) = some [1, 2, 3]) ∧
    (byteSer.serialized_size ([1, 2, 3] : Bytes) =
      some ([1, 2, 3] : Bytes).length) ∧
    (MessageWrapper.serialize lenHeader byteSer
        (MessageWrapper.mk ([1, 2, 3] : Bytes)) =
      some (lenHeader.as_bytes (lenHeader.new ([1, 2, 3] : Bytes).length) ++
        [1, 2, 3])) :=
  ⟨by decide, by decide,
    C8_serialize_header_then_payload lenHeader byteSer
      (MessageWrapper.mk [1, 2, 3]) [1, 2, 3] (by decide) (by decide)⟩

/-- C10: whenever update() runs in the header-full state (ProcessHeader)
with enough buffered bytes, the first header_size bytes are split off
before parsing, so a failed header parse still returns with those bytes
removed from the buffer — which is strictly shorter whenever header_size is
positive. -/
theorem C10_header_bytes_removed_on_parse_failure {H M : Type}
    (hc : HeaderCodec H) (sr : Ser M) (r : Reader H M)
    (hstate : r.state = ReaderState.ProcessHeader)
    (hlen : hc.header_size ≤ r.databuffer.length)
    (hfail : hc.from_bytes (r.databuffer.take hc.header_size) = none) :
    Reader.update hc sr r =
      UpdateResult.err UpdateError.HeaderParser
        { r with databuffer := r.databuffer.drop hc.header_size } ∧
    (0 < hc.header_size →
      (r.databuffer.drop hc.header_size).length < r.databuffer.length) := by
  constructor
  · simp [Reader.update, hstate, hlen, hfail]
  · intro hpos
    rw [List.length_drop]
    omega

/-- Witness for C10 at a concrete bad-magic buffer. -/
theorem C10_header_bytes_removed_on_parse_failure_witness :
    (({ databuffer := [0, 3, 9], state := ReaderState.ProcessHeader,
        ready_messages := [] } : Reader Nat Bytes).state =
      ReaderState.ProcessHeader) ∧
    (checkedHeader.header_size ≤ ([0, 3, 9] : Bytes).length) ∧
    (checkedHeader.from_bytes
        (([0, 3, 9] : Bytes).take checkedHeader.header_size) = none) ∧
    (Reader.update checkedHeader byteSer
        ({ databuffer := [0, 3, 9], state := ReaderState.ProcessHeader,
           ready_messages := [] } : Reader Nat Bytes) =
      UpdateResult.err UpdateError.HeaderParser
        { databuffer := ([0, 3, 9] : Bytes).drop checkedHeader.header_size,
          state := ReaderState.ProcessHeader, ready_messages := [] } ∧
    (0 < checkedHeader.header_size →
      (([0, 3, 9] : Bytes).drop checkedHeader.header_size).length <
        ([0, 3, 9] : Bytes).length)) :=
  ⟨by decide, by decide, by decide,
    C10_header_bytes_removed_on_parse_failure checkedHeader byteSer
      { databuffer := [0, 3, 9], state := ReaderState.ProcessHeader,
        ready_messages := [] }
      (by decide) (by decide) (by decide)⟩

end Smalltalk
